import Mathlib

/-!
# EMlog — verification of the logging / error-taxonomy core

Shallow embedding of the EMlog C library (files `src/app/emlog.c`, the
older variant `src/src/emlog.c`, and the shared header `emlog.h`).

Conventions of the embedding:
* C enums are `Int` constants (C enums have integer type, and the public
  functions are total over out-of-range values cast to the enum type).
* byte strings are `List Char`, one `Char` per byte;
* `snprintf`-style formatting into a buffer of size `n` stores the first
  `n - 1` bytes of the intended text and returns the full intended length;
* `malloc` success is an explicit boolean oracle threaded through the
  state, since the C code has explicit degradation paths for failure;
* emissions (writer callbacks / default-stream `writev` lines) are
  collected in a list, in call order.
-/

namespace EMlog

/-! ## Error categories and exit codes (`emlog.h`) -/

def EML_OK : Int := 0
def EML_TRY_AGAIN : Int := 1
def EML_TEMP_RESOURCE : Int := 2
def EML_TEMP_UNAVAILABLE : Int := 3
def EML_BAD_INPUT : Int := 4
def EML_NOT_FOUND : Int := 5
def EML_PERM : Int := 6
def EML_CONFLICT : Int := 7
def EML_FATAL_CONF : Int := 8
def EML_FATAL_IO : Int := 9
def EML_FATAL_CRYPTO : Int := 10
def EML_FATAL_BUG : Int := 11
def EML__COUNT : Int := 12

def EML_EXIT_OK : Int := 0
def EML_EXIT_CONF : Int := 2
def EML_EXIT_IO : Int := 3
def EML_EXIT_MEM : Int := 4
def EML_EXIT_BUG : Int := 5

/-- `eml_err_to_exit` from `src/app/emlog.c` (lines 352–377): a `switch`
on the category with an explicit `default: return EML_EXIT_OK`. -/
def eml_err_to_exit (e : Int) : Int :=
  if e = EML_OK ∨ e = EML_TRY_AGAIN ∨ e = EML_TEMP_UNAVAILABLE ∨ e = EML_BAD_INPUT ∨
     e = EML_NOT_FOUND ∨ e = EML_PERM ∨ e = EML_CONFLICT then EML_EXIT_OK
  else if e = EML_FATAL_CRYPTO ∨ e = EML_FATAL_CONF then EML_EXIT_CONF
  else if e = EML_FATAL_IO then EML_EXIT_IO
  else if e = EML_TEMP_RESOURCE then EML_EXIT_MEM
  else if e = EML_FATAL_BUG ∨ e = EML__COUNT then EML_EXIT_BUG
  else EML_EXIT_OK

/-- `eml_err_to_exit` from the older variant `src/src/emlog.c`
(lines 297–312): only the four fatal/resource cases are listed; every
other value, `EML_FATAL_CRYPTO` and `EML__COUNT` included, falls to the
`default: return EML_EXIT_OK`. -/
def eml_err_to_exit_src (e : Int) : Int :=
  if e = EML_FATAL_CONF then EML_EXIT_CONF
  else if e = EML_FATAL_IO then EML_EXIT_IO
  else if e = EML_TEMP_RESOURCE then EML_EXIT_MEM
  else if e = EML_FATAL_BUG then EML_EXIT_BUG
  else EML_EXIT_OK

/-! ## errno classification (`eml_from_errno`)

The numeric errno constants are those of Linux/glibc, the platform the
code targets (`_GNU_SOURCE`, `SYS_gettid`).  On this platform
`EWOULDBLOCK == EAGAIN`, so its guarded `case` label is compiled out. -/

def EINTR : Int := 4
def EAGAIN : Int := 11
def EMFILE : Int := 24
def ENFILE : Int := 23
def ENOMEM : Int := 12
def EBUSY : Int := 16
def ENETDOWN : Int := 100
def ENETUNREACH : Int := 101
def ENOENT : Int := 2
def ESRCH : Int := 3
def EINVAL : Int := 22
def EPROTO : Int := 71
def EBADMSG : Int := 74
def EACCES : Int := 13
def EPERM : Int := 1
def EEXIST : Int := 17
def EADDRINUSE : Int := 98
def EIO : Int := 5
def ENOSPC : Int := 28

/-- `eml_from_errno` (identical in `src/app/emlog.c` lines 265–315 and
`src/src/emlog.c` lines 206–256). -/
def eml_from_errno (e : Int) : Int :=
  if e = 0 then EML_OK
  else if e = EINTR ∨ e = EAGAIN then EML_TRY_AGAIN
  else if e = EMFILE ∨ e = ENFILE ∨ e = ENOMEM then EML_TEMP_RESOURCE
  else if e = EBUSY ∨ e = ENETDOWN ∨ e = ENETUNREACH then EML_TEMP_UNAVAILABLE
  else if e = ENOENT ∨ e = ESRCH then EML_NOT_FOUND
  else if e = EINVAL ∨ e = EPROTO ∨ e = EBADMSG then EML_BAD_INPUT
  else if e = EACCES ∨ e = EPERM then EML_PERM
  else if e = EEXIST ∨ e = EADDRINUSE then EML_CONFLICT
  else if e = EIO ∨ e = ENOSPC then EML_FATAL_IO
  else EML_FATAL_BUG

/-- The errno values matched by some non-default `case` label of
`eml_from_errno` (0 included). -/
def matchedErrnos : List Int :=
  [0, EINTR, EAGAIN, EMFILE, ENFILE, ENOMEM, EBUSY, ENETDOWN, ENETUNREACH,
   ENOENT, ESRCH, EINVAL, EPROTO, EBADMSG, EACCES, EPERM, EEXIST, EADDRINUSE,
   EIO, ENOSPC]

/-- The twelve canonical categories (the `COUNT` sentinel excluded). -/
def categories : List Int :=
  [EML_OK, EML_TRY_AGAIN, EML_TEMP_RESOURCE, EML_TEMP_UNAVAILABLE,
   EML_BAD_INPUT, EML_NOT_FOUND, EML_PERM, EML_CONFLICT,
   EML_FATAL_CONF, EML_FATAL_IO, EML_FATAL_CRYPTO, EML_FATAL_BUG]

/-! ## Levels and level parsing -/

def EML_LEVEL_DBG : Nat := 0
def EML_LEVEL_INFO : Nat := 1
def EML_LEVEL_WARN : Nat := 2
def EML_LEVEL_ERROR : Nat := 3
def EML_LEVEL_CRIT : Nat := 4

/-- Byte strings: one `Char` per byte. -/
abbrev Bytes := List Char

/-- Bytes of a string literal. -/
def str (s : String) : Bytes := s.data

/-- `lvl_str` (both variants): level to three-letter mnemonic. -/
def lvl_str (l : Nat) : Bytes :=
  if l = EML_LEVEL_DBG then str "DBG"
  else if l = EML_LEVEL_INFO then str "INF"
  else if l = EML_LEVEL_WARN then str "WRN"
  else if l = EML_LEVEL_ERROR then str "ERR"
  else if l = EML_LEVEL_CRIT then str "CRT"
  else str "UNK"

/-- ASCII `tolower` as used byte-wise by `strcasecmp`. -/
def c_tolower (c : Char) : Char :=
  if 'A' ≤ c ∧ c ≤ 'Z' then Char.ofNat (c.toNat + 32) else c

/-- `strcasecmp(a, b) == 0`: byte-wise case-insensitive equality. -/
def strcaseEq (a b : String) : Bool :=
  a.data.map c_tolower == b.data.map c_tolower

/-- `parse_level` (`src/app/emlog.c` lines 524–533): textual level name
from the environment; `none` models a `NULL` `getenv` result. -/
def parse_level (s : Option String) : Nat :=
  match s with
  | none => EML_LEVEL_INFO
  | some s =>
    if strcaseEq s "debug" then EML_LEVEL_DBG
    else if strcaseEq s "info" then EML_LEVEL_INFO
    else if strcaseEq s "warn" || strcaseEq s "warning" then EML_LEVEL_WARN
    else if strcaseEq s "error" then EML_LEVEL_ERROR
    else if strcaseEq s "crit" || strcaseEq s "fatal" then EML_LEVEL_CRIT
    else EML_LEVEL_INFO

/-! ## The emit pipeline (`src/app/emlog.c`)

Buffer sizes from the source: `stackbuf[1024]`, `head[128]`,
`warnbuf[128]`, writer stack buffer `buf[2048]`, `base[768]` in
`emlog_log_errno`, and `LOG_MAX_WRITE = PIPE_BUF = 4096` on Linux. -/

def LOG_MAX_WRITE : Nat := 4096
def STACKBUF_SIZE : Nat := 1024
def HEAD_SIZE : Nat := 128
def WRITER_STACK_SIZE : Nat := 2048
def ERRNO_BASE_SIZE : Nat := 768

/-- Result of the stack-first / heap-fallback message formatting step of
`vlog` (`src/app/emlog.c` lines 697–723). -/
structure MsgResult where
  /-- The message bytes finally used (`msg` / `msglen` in the source). -/
  msg : Bytes
  /-- Whether the heap buffer is in use (`msg == heap`). -/
  usedHeap : Bool
  /-- Size passed to `malloc` when an allocation was attempted
  (`need + 1`), `none` when the stack path needed no allocation. -/
  allocReq : Option Nat
  deriving Repr, DecidableEq

/-- Message formatting step of `vlog`: `vsnprintf` into `stackbuf[1024]`
returns the full length `need` and stores the first 1023 bytes; if
`need >= 1024`, `malloc(need + 1)` and reformat, degrading to the
truncated stack content if the allocation fails.  `full` is the complete
formatted text, `allocOk` the `malloc` oracle. -/
def formatMessage (full : Bytes) (allocOk : Bool) : MsgResult :=
  if full.length < STACKBUF_SIZE then
    { msg := full, usedHeap := false, allocReq := none }
  else if allocOk then
    { msg := full, usedHeap := true, allocReq := some (full.length + 1) }
  else
    { msg := full.take (STACKBUF_SIZE - 1), usedHeap := false,
      allocReq := some (full.length + 1) }

/-- Decimal rendering of the `%llu` / `%d` directives. -/
def decimal (n : Nat) : Bytes := (Nat.repr n).data

def decimalInt (i : Int) : Bytes := (Int.repr i).data

/-- The full header text composed by `vlog` (`src/app/emlog.c` lines
725–731): `"<ts> <LVL> [<tid>] [<comp>] "` with timestamps, or
`"<LVL> [<tid>] [<comp>] "` without; a `NULL` component prints as
`"-"`.  `snprintf` stores at most `HEAD_SIZE - 1` of these bytes and
returns the full length `hlen`. -/
def mkHeader (useTs : Bool) (ts : Bytes) (level : Nat) (tid : Nat)
    (comp : Option Bytes) : Bytes :=
  if useTs then
    ts ++ str " " ++ lvl_str level ++ str " [" ++ decimal tid ++ str "] [" ++
      comp.getD (str "-") ++ str "] "
  else
    lvl_str level ++ str " [" ++ decimal tid ++ str "] [" ++
      comp.getD (str "-") ++ str "] "

/-- One observable emission: a custom-writer invocation or one
default-stream line (the trailing newline, appended by the write path,
is left implicit). -/
structure Emission where
  level : Nat
  /-- The line bytes the sink receives (newline excluded). -/
  content : Bytes
  /-- `true` when delivered through the installed custom writer. -/
  viaWriter : Bool
  /-- The `user` context pointer handed to the custom writer (`0` for
  the default path), modelled as an opaque number. -/
  user : Nat
  deriving Repr, DecidableEq

/-- Global configuration / oracles visible to one `vlog` call.  The C
code reads the global `G` under its mutex; `ts` stands for the bytes
`fmt_time_iso8601` produced for this call, `tid` for `eml_tid()`.
`msgAllocOk` and `writerAllocOk` are the `malloc` oracles of the message
step and of `write_line_iov`; `writerRet` is the value the custom writer
returns (its result is discarded by the code). -/
structure VlogEnv where
  minLevel : Nat
  useTs : Bool
  ts : Bytes
  tid : Nat
  writerInstalled : Bool
  writerUser : Nat
  msgAllocOk : Bool
  writerAllocOk : Bool
  writerRet : Int
  deriving Repr, DecidableEq

/-- `write_line_iov` (`src/app/emlog.c` lines 545–616).  With a custom
writer the spans are concatenated (stack buffer when the total is at
most 2048, else a heap buffer whose allocation failure drops the line)
and the writer is invoked once; the default path issues one `writev`
of the spans plus a newline. -/
def write_line_iov (env : VlogEnv) (level : Nat) (spans : List Bytes) :
    List Emission :=
  let total := (spans.map List.length).sum
  let buf := spans.flatten
  if env.writerInstalled then
    if total ≤ WRITER_STACK_SIZE then
      [{ level := level, content := buf, viaWriter := true, user := env.writerUser }]
    else if env.writerAllocOk then
      [{ level := level, content := buf, viaWriter := true, user := env.writerUser }]
    else []
  else
    [{ level := level, content := buf, viaWriter := false, user := 0 }]

/-- The `TRUNCATED:` companion text (`src/app/emlog.c` lines 805–807). -/
def warnText (level : Nat) (tid : Nat) (comp : Option Bytes) : Bytes :=
  str "TRUNCATED: " ++ lvl_str level ++ str " [" ++ decimal tid ++ str "] [" ++
    comp.getD (str "-") ++ str "]"

/-- `vlog` (`src/app/emlog.c` lines 618–818): filter, format the
message (stack then heap), compose the header, enforce the
`LOG_MAX_WRITE` bound with `"..."` truncation and a `TRUNCATED:`
companion line, and hand the spans to `write_line_iov`.  `full` is the
fully formatted message text.  Buffered texts are `take`-truncated to
their buffer capacities exactly where `snprintf` does so. -/
def vlog (env : VlogEnv) (level : Nat) (comp : Option Bytes) (full : Bytes) :
    List Emission :=
  if level < env.minLevel then []
  else
    let fm := formatMessage full env.msgAllocOk
    let msg := fm.msg
    let msglen := msg.length
    let header := mkHeader env.useTs env.ts level env.tid comp
    let hlen := header.length
    let headStored := header.take (HEAD_SIZE - 1)
    let total := hlen + msglen
    if LOG_MAX_WRITE < total + 1 ∧ 0 < msglen then
      let allowed := LOG_MAX_WRITE - 1
      let spans :=
        if allowed ≤ hlen then
          [headStored.take (allowed - 3)]
        else
          let remain := allowed - hlen
          if remain < 4 then [headStored]
          else [headStored, msg.take (remain - 3) ++ str "..."]
      write_line_iov env level spans ++
        write_line_iov env level [(warnText level env.tid comp).take (HEAD_SIZE - 1)]
    else
      write_line_iov env level
        (if msglen = 0 then [headStored] else [headStored, msg])

/-- `emlog_log` (`src/app/emlog.c` lines 237–245): take the mutex and
run `vlog`.  The emissions of one call, in order. -/
def emlog_log (env : VlogEnv) (level : Nat) (comp : Option Bytes)
    (full : Bytes) : List Emission :=
  vlog env level comp full

/-- The message text `emlog_log_errno` hands to `emlog_log`:
`"%s: %s (%d)"` with the base text, the `strerror_r` text and the
decimal errno. -/
def errnoMessage (strerror : Int → Bytes) (err : Int) (base : Bytes) : Bytes :=
  base ++ str ": " ++ strerror err ++ str " (" ++ decimalInt err ++ str ")"

/-- `emlog_log_errno` (`src/app/emlog.c` lines 247–263): `vsnprintf` the
caller's format into `base[768]` (silent truncation to 767 bytes), then
log `"%s: %s (%d)"`.  `strerror` models the platform `strerror_r`
table; `full` is the complete formatted base text. -/
def emlog_log_errno (env : VlogEnv) (strerror : Int → Bytes) (level : Nat)
    (comp : Option Bytes) (err : Int) (full : Bytes) : List Emission :=
  emlog_log env level comp
    (errnoMessage strerror err (full.take (ERRNO_BASE_SIZE - 1)))

/-! ## Initialization (`src/app/emlog.c` lines 182–206) -/

/-- The global state fields `emlog_init` updates. -/
structure GState where
  minLevel : Nat
  useTs : Bool
  initGen : Nat
  initialized : Bool
  deriving Repr, DecidableEq

/-- The body text of the `EML_INFO` line `emlog_init` emits. -/
def initMessage (newLevel : Nat) (useTs : Bool) : Bytes :=
  str "Initialized emlog (level=" ++ lvl_str newLevel ++
    str ", timestamps=" ++ (if useTs then str "enabled" else str "disabled") ++
    str ")"

/-- `emlog_init` (`src/app` variant): under the mutex, pick the new
level (from `EMLOG_LEVEL` when `min_level < 0`, else the cast argument),
store the timestamp flag, bump `init_gen`; after unlocking, emit one
`EML_INFO("emlog", "Initialized emlog (level=%s, timestamps=%s)", ...)`
line through the normal pipeline.  `envVar` models `getenv`, `w` the
writer/oracle context of the trailing log call. -/
def emlog_init (g : GState) (envVar : Option String) (ts : Bytes) (tid : Nat)
    (writerInstalled : Bool) (writerUser : Nat) (msgAllocOk writerAllocOk : Bool)
    (writerRet : Int) (min_level : Int) (timestamps : Bool) :
    GState × List Emission :=
  let newLevel := if min_level < 0 then parse_level envVar else min_level.toNat
  let g' : GState := { minLevel := newLevel, useTs := timestamps,
                       initGen := g.initGen + 1, initialized := true }
  let env : VlogEnv := { minLevel := newLevel, useTs := timestamps, ts := ts,
                         tid := tid, writerInstalled := writerInstalled,
                         writerUser := writerUser, msgAllocOk := msgAllocOk,
                         writerAllocOk := writerAllocOk, writerRet := writerRet }
  (g', emlog_log env EML_LEVEL_INFO (some (str "emlog"))
         (initMessage newLevel timestamps))

/-! ## The older variant's emit path (`src/src/emlog.c`)

The `src/src` variant shares the filter, the stack/heap message
formatting and the header formats (into `head[96]`), but enforces no
atomic-write bound: the whole line is assembled with one `malloc` and
handed to `write_line`, whatever its size. -/

def HEAD_SIZE_SRC : Nat := 96

/-- `write_line` (`src/src/emlog.c` lines 400–411): one custom-writer
invocation when a writer is installed, else one default-stream line
(`fwrite` + newline + flush). -/
def write_line (env : VlogEnv) (level : Nat) (line : Bytes) : List Emission :=
  if env.writerInstalled then
    [{ level := level, content := line, viaWriter := true, user := env.writerUser }]
  else
    [{ level := level, content := line, viaWriter := false, user := 0 }]

/-- `vlog` from `src/src/emlog.c` (lines 413–475): filter, the same
stack-first/heap-fallback message formatting, header into `head[96]`,
then the whole `head ++ msg` line is emitted through `write_line` with
no size bound of any kind; when the line's `malloc(linelen + 1)` fails
(oracle `lineAllocOk`) the header and the message go out as two
separate lines instead. -/
def vlog_src (env : VlogEnv) (lineAllocOk : Bool) (level : Nat)
    (comp : Option Bytes) (full : Bytes) : List Emission :=
  if level < env.minLevel then []
  else
    let fm := formatMessage full env.msgAllocOk
    let msg := fm.msg
    let header := mkHeader env.useTs env.ts level env.tid comp
    let headStored := header.take (HEAD_SIZE_SRC - 1)
    if lineAllocOk then
      write_line env level (headStored ++ msg)
    else
      write_line env level headStored ++ write_line env level msg

/-! ## Shared sample inputs for concrete witnesses -/

/-- A default-writer environment: everything below DBG emitted, no
timestamps, tid 7, allocations succeed. -/
def defaultEnv : VlogEnv :=
  { minLevel := 0, useTs := false, ts := [], tid := 7,
    writerInstalled := false, writerUser := 0, msgAllocOk := true,
    writerAllocOk := true, writerRet := 0 }

/-- Same, but with a custom writer (user context 42) installed. -/
def writerEnv : VlogEnv :=
  { defaultEnv with writerInstalled := true, writerUser := 42 }

/-! ## Claims about the error taxonomy -/

/-- C1 counterexample: the out-of-range category value `13`
(one past the `EML__COUNT` sentinel) hits the `default:` label of
`eml_err_to_exit` and yields the success exit code, not `EML_EXIT_BUG`;
and the `src/src` variant also sends `EML_FATAL_CRYPTO` and
`EML__COUNT` to the success exit code. -/
theorem c1_out_of_range_counterexample :
    eml_err_to_exit 13 = EML_EXIT_OK ∧ eml_err_to_exit 13 ≠ EML_EXIT_BUG ∧
    eml_err_to_exit_src EML_FATAL_CRYPTO = EML_EXIT_OK ∧
    eml_err_to_exit_src EML__COUNT = EML_EXIT_OK := by
  decide

/-- C1 (amended): in the `src/app` variant the seven non-fatal
categories map to exit 0, `FATAL_CRYPTO`/`FATAL_CONF` to 2, `FATAL_IO`
to 3, `TEMP_RESOURCE` to 4 and `FATAL_BUG`/`COUNT` to 5, while every
out-of-range value maps to the success exit code 0; the `src/src`
variant agrees on `FATAL_CONF`/`FATAL_IO`/`TEMP_RESOURCE`/`FATAL_BUG`
but sends `FATAL_CRYPTO`, `COUNT` and out-of-range values to 0 as well.
Both functions are total. -/
theorem c1_exit_code_mapping :
    (eml_err_to_exit EML_OK = EML_EXIT_OK ∧
     eml_err_to_exit EML_TRY_AGAIN = EML_EXIT_OK ∧
     eml_err_to_exit EML_TEMP_UNAVAILABLE = EML_EXIT_OK ∧
     eml_err_to_exit EML_BAD_INPUT = EML_EXIT_OK ∧
     eml_err_to_exit EML_NOT_FOUND = EML_EXIT_OK ∧
     eml_err_to_exit EML_PERM = EML_EXIT_OK ∧
     eml_err_to_exit EML_CONFLICT = EML_EXIT_OK) ∧
    (eml_err_to_exit EML_FATAL_CRYPTO = EML_EXIT_CONF ∧
     eml_err_to_exit EML_FATAL_CONF = EML_EXIT_CONF) ∧
    eml_err_to_exit EML_FATAL_IO = EML_EXIT_IO ∧
    eml_err_to_exit EML_TEMP_RESOURCE = EML_EXIT_MEM ∧
    (eml_err_to_exit EML_FATAL_BUG = EML_EXIT_BUG ∧
     eml_err_to_exit EML__COUNT = EML_EXIT_BUG) ∧
    (eml_err_to_exit_src EML_FATAL_CONF = EML_EXIT_CONF ∧
     eml_err_to_exit_src EML_FATAL_IO = EML_EXIT_IO ∧
     eml_err_to_exit_src EML_TEMP_RESOURCE = EML_EXIT_MEM ∧
     eml_err_to_exit_src EML_FATAL_BUG = EML_EXIT_BUG ∧
     eml_err_to_exit_src EML_FATAL_CRYPTO = EML_EXIT_OK ∧
     eml_err_to_exit_src EML__COUNT = EML_EXIT_OK) ∧
    (∀ e : Int, e < 0 ∨ EML__COUNT < e →
       eml_err_to_exit e = EML_EXIT_OK ∧ eml_err_to_exit_src e = EML_EXIT_OK) := by
  refine ⟨by decide, by decide, by decide, by decide, by decide, by decide, ?_⟩
  intro e h
  simp only [EML__COUNT] at h
  unfold eml_err_to_exit eml_err_to_exit_src
  simp only [EML_OK, EML_TRY_AGAIN, EML_TEMP_RESOURCE, EML_TEMP_UNAVAILABLE,
    EML_BAD_INPUT, EML_NOT_FOUND, EML_PERM, EML_CONFLICT, EML_FATAL_CONF,
    EML_FATAL_IO, EML_FATAL_CRYPTO, EML_FATAL_BUG, EML__COUNT,
    EML_EXIT_OK, EML_EXIT_CONF, EML_EXIT_IO, EML_EXIT_MEM, EML_EXIT_BUG]
  split_ifs <;> omega

/-- C1 witness: the amended out-of-range clause applied at the concrete
category value 13. -/
theorem c1_exit_code_mapping_witness :
    eml_err_to_exit 13 = EML_EXIT_OK ∧ eml_err_to_exit_src 13 = EML_EXIT_OK :=
  c1_exit_code_mapping.2.2.2.2.2.2 13 (by decide)

/-- C4: `eml_from_errno` is total and deterministic: `0` maps to
`EML_OK`, every integer maps to one of the twelve categories and never
to the `COUNT` sentinel, the fixed table maps as documented, and every
errno not matched by a `case` label maps to `EML_FATAL_BUG`. -/
theorem c4_classify_errno :
    eml_from_errno 0 = EML_OK ∧
    (∀ e : Int, eml_from_errno e ∈ categories ∧ eml_from_errno e ≠ EML__COUNT) ∧
    ((eml_from_errno EINTR = EML_TRY_AGAIN ∧
      eml_from_errno EAGAIN = EML_TRY_AGAIN) ∧
     (eml_from_errno EMFILE = EML_TEMP_RESOURCE ∧
      eml_from_errno ENFILE = EML_TEMP_RESOURCE ∧
      eml_from_errno ENOMEM = EML_TEMP_RESOURCE) ∧
     (eml_from_errno EBUSY = EML_TEMP_UNAVAILABLE ∧
      eml_from_errno ENETDOWN = EML_TEMP_UNAVAILABLE ∧
      eml_from_errno ENETUNREACH = EML_TEMP_UNAVAILABLE) ∧
     (eml_from_errno ENOENT = EML_NOT_FOUND ∧
      eml_from_errno ESRCH = EML_NOT_FOUND) ∧
     (eml_from_errno EINVAL = EML_BAD_INPUT ∧
      eml_from_errno EPROTO = EML_BAD_INPUT ∧
      eml_from_errno EBADMSG = EML_BAD_INPUT) ∧
     (eml_from_errno EACCES = EML_PERM ∧ eml_from_errno EPERM = EML_PERM) ∧
     (eml_from_errno EEXIST = EML_CONFLICT ∧
      eml_from_errno EADDRINUSE = EML_CONFLICT) ∧
     (eml_from_errno EIO = EML_FATAL_IO ∧
      eml_from_errno ENOSPC = EML_FATAL_IO)) ∧
    (∀ e : Int, e ∉ matchedErrnos → eml_from_errno e = EML_FATAL_BUG) := by
  refine ⟨by decide, ?_, by decide, ?_⟩
  · intro e
    unfold eml_from_errno
    split_ifs <;> decide
  · intro e h
    simp only [matchedErrnos, EINTR, EAGAIN, EMFILE, ENFILE, ENOMEM, EBUSY,
      ENETDOWN, ENETUNREACH, ENOENT, ESRCH, EINVAL, EPROTO, EBADMSG, EACCES,
      EPERM, EEXIST, EADDRINUSE, EIO, ENOSPC, List.mem_cons,
      List.not_mem_nil, or_false, not_or] at h
    unfold eml_from_errno
    simp only [EINTR, EAGAIN, EMFILE, ENFILE, ENOMEM, EBUSY, ENETDOWN,
      ENETUNREACH, ENOENT, ESRCH, EINVAL, EPROTO, EBADMSG, EACCES, EPERM,
      EEXIST, EADDRINUSE, EIO, ENOSPC]
    split_ifs <;> first
      | rfl
      | (exfalso; omega)

/-- C4 witness: the universally quantified clauses applied at the
concrete unmatched errno value 1000. -/
theorem c4_classify_errno_witness :
    eml_from_errno 1000 ∈ categories ∧ eml_from_errno 1000 = EML_FATAL_BUG :=
  ⟨(c4_classify_errno.2.1 1000).1, c4_classify_errno.2.2.2 1000 (by decide)⟩

/-! ## Level parsing and initialization level selection (C9) -/

theorem strcaseEq_true_of_canon {s : String} {t : String}
    (h : s.data.map c_tolower = t.data.map c_tolower) : strcaseEq s t = true := by
  simp [strcaseEq, h]

theorem strcaseEq_false_of_ne {s : String} {t : String}
    (h : s.data.map c_tolower ≠ t.data.map c_tolower) : strcaseEq s t = false := by
  simp [strcaseEq, h]

/-- C9: `emlog_init` with a negative level argument takes the minimum
level from the `EMLOG_LEVEL` environment variable, compared
byte-wise case-insensitively: `debug` gives DBG, `info` INFO,
`warn`/`warning` WARN, `error` ERROR, `crit`/`fatal` CRIT, and an unset
variable or any other value gives INFO; a non-negative argument is used
directly (cast to the level type). -/
theorem c9_init_level_selection (g : GState) (ts : Bytes) (tid : Nat)
    (wi : Bool) (wu : Nat) (ma wa : Bool) (wr : Int) (tsFlag : Bool)
    (ml : Int) (envVar : Option String) (s : String) :
    (0 ≤ ml →
      (emlog_init g envVar ts tid wi wu ma wa wr ml tsFlag).1.minLevel = ml.toNat) ∧
    (ml < 0 →
      ((emlog_init g none ts tid wi wu ma wa wr ml tsFlag).1.minLevel =
         EML_LEVEL_INFO) ∧
      (s.data.map c_tolower = str "debug" →
        (emlog_init g (some s) ts tid wi wu ma wa wr ml tsFlag).1.minLevel =
          EML_LEVEL_DBG) ∧
      (s.data.map c_tolower = str "info" →
        (emlog_init g (some s) ts tid wi wu ma wa wr ml tsFlag).1.minLevel =
          EML_LEVEL_INFO) ∧
      (s.data.map c_tolower = str "warn" ∨ s.data.map c_tolower = str "warning" →
        (emlog_init g (some s) ts tid wi wu ma wa wr ml tsFlag).1.minLevel =
          EML_LEVEL_WARN) ∧
      (s.data.map c_tolower = str "error" →
        (emlog_init g (some s) ts tid wi wu ma wa wr ml tsFlag).1.minLevel =
          EML_LEVEL_ERROR) ∧
      (s.data.map c_tolower = str "crit" ∨ s.data.map c_tolower = str "fatal" →
        (emlog_init g (some s) ts tid wi wu ma wa wr ml tsFlag).1.minLevel =
          EML_LEVEL_CRIT) ∧
      ((∀ t ∈ ["debug", "info", "warn", "warning", "error", "crit", "fatal"],
          s.data.map c_tolower ≠ str t) →
        (emlog_init g (some s) ts tid wi wu ma wa wr ml tsFlag).1.minLevel =
          EML_LEVEL_INFO)) := by
  simp only [emlog_init]
  constructor
  · intro h
    rw [if_neg (by omega)]
  · intro hneg
    refine ⟨by rw [if_pos hneg]; rfl, ?_, ?_, ?_, ?_, ?_, ?_⟩
    · intro h
      rw [if_pos hneg]
      simp [parse_level, strcaseEq_true_of_canon (t := "debug") (by rw [h]; decide)]
    · intro h
      rw [if_pos hneg]
      simp [parse_level,
        strcaseEq_false_of_ne (t := "debug") (by rw [h]; decide),
        strcaseEq_true_of_canon (t := "info") (by rw [h]; decide)]
    · intro h
      rw [if_pos hneg]
      rcases h with h | h
      · simp [parse_level,
          strcaseEq_false_of_ne (t := "debug") (by rw [h]; decide),
          strcaseEq_false_of_ne (t := "info") (by rw [h]; decide),
          strcaseEq_true_of_canon (t := "warn") (by rw [h]; decide)]
      · simp [parse_level,
          strcaseEq_false_of_ne (t := "debug") (by rw [h]; decide),
          strcaseEq_false_of_ne (t := "info") (by rw [h]; decide),
          strcaseEq_false_of_ne (t := "warn") (by rw [h]; decide),
          strcaseEq_true_of_canon (t := "warning") (by rw [h]; decide)]
    · intro h
      rw [if_pos hneg]
      simp [parse_level,
        strcaseEq_false_of_ne (t := "debug") (by rw [h]; decide),
        strcaseEq_false_of_ne (t := "info") (by rw [h]; decide),
        strcaseEq_false_of_ne (t := "warn") (by rw [h]; decide),
        strcaseEq_false_of_ne (t := "warning") (by rw [h]; decide),
        strcaseEq_true_of_canon (t := "error") (by rw [h]; decide)]
    · intro h
      rw [if_pos hneg]
      rcases h with h | h
      · simp [parse_level,
          strcaseEq_false_of_ne (t := "debug") (by rw [h]; decide),
          strcaseEq_false_of_ne (t := "info") (by rw [h]; decide),
          strcaseEq_false_of_ne (t := "warn") (by rw [h]; decide),
          strcaseEq_false_of_ne (t := "warning") (by rw [h]; decide),
          strcaseEq_false_of_ne (t := "error") (by rw [h]; decide),
          strcaseEq_true_of_canon (t := "crit") (by rw [h]; decide)]
      · simp [parse_level,
          strcaseEq_false_of_ne (t := "debug") (by rw [h]; decide),
          strcaseEq_false_of_ne (t := "info") (by rw [h]; decide),
          strcaseEq_false_of_ne (t := "warn") (by rw [h]; decide),
          strcaseEq_false_of_ne (t := "warning") (by rw [h]; decide),
          strcaseEq_false_of_ne (t := "error") (by rw [h]; decide),
          strcaseEq_false_of_ne (t := "crit") (by rw [h]; decide),
          strcaseEq_true_of_canon (t := "fatal") (by rw [h]; decide)]
    · intro h
      rw [if_pos hneg]
      have hne : ∀ t : String, t ∈ ["debug", "info", "warn", "warning",
          "error", "crit", "fatal"] → strcaseEq s t = false := by
        intro t ht
        refine strcaseEq_false_of_ne ?_
        have h2 := h t ht
        intro hcontra
        apply h2
        rw [hcontra]
        fin_cases ht <;> decide
      simp [parse_level, hne "debug" (by simp), hne "info" (by simp),
        hne "warn" (by simp), hne "warning" (by simp), hne "error" (by simp),
        hne "crit" (by simp), hne "fatal" (by simp)]

/-- C9 witness: with the environment variable set to `"WARNING"` and a
negative level argument the minimum level becomes WARN; with argument 3
it becomes 3. -/
theorem c9_init_level_selection_witness :
    (emlog_init ⟨1, true, 0, false⟩ (some "WARNING") [] 7 false 0 true true 0
        (-1) false).1.minLevel = EML_LEVEL_WARN ∧
    (emlog_init ⟨1, true, 0, false⟩ none [] 7 false 0 true true 0
        3 false).1.minLevel = (3 : Int).toNat := by
  constructor
  · exact (c9_init_level_selection ⟨1, true, 0, false⟩ [] 7 false 0 true true 0
      false (-1) (some "WARNING") "WARNING").2 (by decide)
      |>.2.2.2.1 (Or.inr (by decide))
  · exact (c9_init_level_selection ⟨1, true, 0, false⟩ [] 7 false 0 true true 0
      false 3 none "x").1 (by decide)

/-! ## Helper lemmas about the emit pipeline -/

/-- When any heap allocation it may need succeeds, `write_line_iov`
produces exactly one emission: the concatenated spans through the
custom writer when one is installed, else one default-stream line. -/
theorem write_line_iov_singleton (env : VlogEnv) (level : Nat)
    (spans : List Bytes) (h : env.writerAllocOk = true) :
    write_line_iov env level spans =
      [{ level := level, content := spans.flatten,
         viaWriter := env.writerInstalled,
         user := if env.writerInstalled then env.writerUser else 0 }] := by
  unfold write_line_iov
  split_ifs <;> simp_all

theorem lvl_str_length (l : Nat) : (lvl_str l).length = 3 := by
  unfold lvl_str
  split_ifs <;> rfl

/-- `vlog` when the level passes the filter and the line fits the
atomic-write bound: one emission, header followed by the formatted
message, no truncation. -/
theorem vlog_fits (env : VlogEnv) (level : Nat) (comp : Option Bytes)
    (full : Bytes)
    (hmin : env.minLevel ≤ level)
    (ha : env.writerAllocOk = true)
    (hhead : (mkHeader env.useTs env.ts level env.tid comp).length ≤ HEAD_SIZE - 1)
    (hfit : (mkHeader env.useTs env.ts level env.tid comp).length +
        (formatMessage full env.msgAllocOk).msg.length + 1 ≤ LOG_MAX_WRITE) :
    vlog env level comp full =
      [{ level := level,
         content := mkHeader env.useTs env.ts level env.tid comp ++
                    (formatMessage full env.msgAllocOk).msg,
         viaWriter := env.writerInstalled,
         user := if env.writerInstalled then env.writerUser else 0 }] := by
  unfold vlog
  rw [if_neg (by omega)]
  rw [if_neg (by omega : ¬(LOG_MAX_WRITE <
    (mkHeader env.useTs env.ts level env.tid comp).length +
    (formatMessage full env.msgAllocOk).msg.length + 1 ∧
    0 < (formatMessage full env.msgAllocOk).msg.length))]
  rw [List.take_of_length_le hhead]
  rw [write_line_iov_singleton env level _ ha]
  by_cases hm : (formatMessage full env.msgAllocOk).msg.length = 0
  · rw [if_pos hm, List.length_eq_zero.mp hm]
    simp
  · rw [if_neg hm]
    simp

/-- `vlog` when the level passes the filter and the line exceeds the
atomic-write bound: the message is cut to what fits, its last three
retained bytes become `"..."`, and a `TRUNCATED:` companion line
follows at the same level. -/
theorem vlog_trunc (env : VlogEnv) (level : Nat) (comp : Option Bytes)
    (full : Bytes)
    (hmin : env.minLevel ≤ level)
    (ha : env.writerAllocOk = true)
    (hhead : (mkHeader env.useTs env.ts level env.tid comp).length ≤ HEAD_SIZE - 1)
    (hwarn : (warnText level env.tid comp).length ≤ HEAD_SIZE - 1)
    (hbig : LOG_MAX_WRITE < (mkHeader env.useTs env.ts level env.tid comp).length +
        (formatMessage full env.msgAllocOk).msg.length + 1) :
    vlog env level comp full =
      [{ level := level,
         content := mkHeader env.useTs env.ts level env.tid comp ++
           ((formatMessage full env.msgAllocOk).msg.take
              (LOG_MAX_WRITE - 1 -
                (mkHeader env.useTs env.ts level env.tid comp).length - 3) ++
            str "..."),
         viaWriter := env.writerInstalled,
         user := if env.writerInstalled then env.writerUser else 0 },
       { level := level,
         content := warnText level env.tid comp,
         viaWriter := env.writerInstalled,
         user := if env.writerInstalled then env.writerUser else 0 }] := by
  have hmsg : 0 < (formatMessage full env.msgAllocOk).msg.length := by
    simp only [HEAD_SIZE] at hhead
    simp only [LOG_MAX_WRITE] at hbig
    omega
  unfold vlog
  rw [if_neg (by omega)]
  rw [if_pos ⟨hbig, hmsg⟩]
  simp only []
  rw [if_neg (by simp only [HEAD_SIZE] at hhead; simp only [LOG_MAX_WRITE]; omega :
    ¬(LOG_MAX_WRITE - 1 ≤ (mkHeader env.useTs env.ts level env.tid comp).length))]
  rw [if_neg (by simp only [HEAD_SIZE] at hhead; simp only [LOG_MAX_WRITE]; omega :
    ¬(LOG_MAX_WRITE - 1 - (mkHeader env.useTs env.ts level env.tid comp).length < 4))]
  rw [List.take_of_length_le hhead, List.take_of_length_le hwarn]
  rw [write_line_iov_singleton env level _ ha, write_line_iov_singleton env level _ ha]
  simp

/-- `vlog` drops the call before any formatting work when the level is
below the configured minimum. -/
theorem vlog_filtered (env : VlogEnv) (level : Nat) (comp : Option Bytes)
    (full : Bytes) (h : level < env.minLevel) :
    vlog env level comp full = [] := by
  unfold vlog
  rw [if_pos h]

/-- `write_line` always produces exactly one emission. -/
theorem write_line_length (env : VlogEnv) (level : Nat) (line : Bytes) :
    (write_line env level line).length = 1 := by
  unfold write_line
  split_ifs <;> rfl

/-- `write_line` as a singleton, the writer fields resolved. -/
theorem write_line_singleton (env : VlogEnv) (level : Nat) (line : Bytes) :
    write_line env level line =
      [{ level := level, content := line, viaWriter := env.writerInstalled,
         user := if env.writerInstalled then env.writerUser else 0 }] := by
  unfold write_line
  split_ifs with h <;> simp [h]

/-- The `src/src` emit path with the line allocation succeeding and the
header fitting `head[96]`: one emission of the unmodified line,
whatever its length — no bound, no truncation, no companion. -/
theorem vlog_src_line (env : VlogEnv) (level : Nat) (comp : Option Bytes)
    (full : Bytes)
    (hmin : env.minLevel ≤ level)
    (hhead : (mkHeader env.useTs env.ts level env.tid comp).length ≤
      HEAD_SIZE_SRC - 1) :
    vlog_src env true level comp full =
      [{ level := level,
         content := mkHeader env.useTs env.ts level env.tid comp ++
                    (formatMessage full env.msgAllocOk).msg,
         viaWriter := env.writerInstalled,
         user := if env.writerInstalled then env.writerUser else 0 }] := by
  unfold vlog_src
  rw [if_neg (by omega)]
  simp only []
  rw [if_pos trivial, List.take_of_length_le hhead]
  exact write_line_singleton env level _

/-- With a succeeding allocator the formatted message is always the
full text, on either path. -/
theorem formatMessage_msg_allocOk (full : Bytes) :
    (formatMessage full true).msg = full := by
  unfold formatMessage
  split_ifs <;> simp_all

/-- Length of the header in the shared default sample environment. -/
theorem defaultEnv_header_length :
    (mkHeader defaultEnv.useTs defaultEnv.ts 1 defaultEnv.tid none).length = 12 := by
  decide

/-- The 5000-byte sample message survives formatting intact (heap path,
allocation succeeding). -/
theorem replicate5000_msg_length :
    (formatMessage (List.replicate 5000 'a') defaultEnv.msgAllocOk).msg.length = 5000 := by
  show (formatMessage (List.replicate 5000 'a') true).msg.length = 5000
  unfold formatMessage
  rw [if_neg (by rw [List.length_replicate]; simp [STACKBUF_SIZE] :
    ¬((List.replicate 5000 'a').length < STACKBUF_SIZE))]
  rw [if_pos rfl]
  exact List.length_replicate 5000 'a'

/-- The 5000-byte sample line exceeds the atomic-write bound. -/
theorem replicate5000_exceeds :
    LOG_MAX_WRITE <
      (mkHeader defaultEnv.useTs defaultEnv.ts 1 defaultEnv.tid none).length +
      (formatMessage (List.replicate 5000 'a') defaultEnv.msgAllocOk).msg.length + 1 := by
  rw [defaultEnv_header_length, replicate5000_msg_length]
  simp [LOG_MAX_WRITE]

/-! ## C2 — atomic-write bound enforcement and truncation -/

/-- C2 (amended): in the `src/app` variant, when the level passes the
filter: if header + message + newline exceeds `LOG_MAX_WRITE` the
message (the header is never touched while it fits its buffer) is cut
so the line fits the bound, the last three retained message bytes
become `"..."`, and a `TRUNCATED: <LVL> [<tid>] [<comp-or-dash>]`
companion line follows at the same level; if the total is at or below
the bound the line goes out unmodified with no companion.  The
`src/src` variant enforces no bound at all: every passing call's line
is emitted whole and unmodified whatever its size, with no companion
line ever. -/
theorem c2_truncation_bound (env : VlogEnv) (level : Nat) (comp : Option Bytes)
    (full : Bytes)
    (hmin : env.minLevel ≤ level)
    (ha : env.writerAllocOk = true)
    (hhead : (mkHeader env.useTs env.ts level env.tid comp).length ≤ HEAD_SIZE - 1)
    (hwarn : (warnText level env.tid comp).length ≤ HEAD_SIZE - 1)
    (hheadsrc : (mkHeader env.useTs env.ts level env.tid comp).length ≤
      HEAD_SIZE_SRC - 1) :
    (LOG_MAX_WRITE < (mkHeader env.useTs env.ts level env.tid comp).length +
        (formatMessage full env.msgAllocOk).msg.length + 1 →
      vlog env level comp full =
        [{ level := level,
           content := mkHeader env.useTs env.ts level env.tid comp ++
             ((formatMessage full env.msgAllocOk).msg.take
                (LOG_MAX_WRITE - 1 -
                  (mkHeader env.useTs env.ts level env.tid comp).length - 3) ++
              str "..."),
           viaWriter := env.writerInstalled,
           user := if env.writerInstalled then env.writerUser else 0 },
         { level := level,
           content := warnText level env.tid comp,
           viaWriter := env.writerInstalled,
           user := if env.writerInstalled then env.writerUser else 0 }] ∧
      (mkHeader env.useTs env.ts level env.tid comp ++
         ((formatMessage full env.msgAllocOk).msg.take
            (LOG_MAX_WRITE - 1 -
              (mkHeader env.useTs env.ts level env.tid comp).length - 3) ++
          str "...")).length + 1 ≤ LOG_MAX_WRITE) ∧
    ((mkHeader env.useTs env.ts level env.tid comp).length +
        (formatMessage full env.msgAllocOk).msg.length + 1 ≤ LOG_MAX_WRITE →
      vlog env level comp full =
        [{ level := level,
           content := mkHeader env.useTs env.ts level env.tid comp ++
                      (formatMessage full env.msgAllocOk).msg,
           viaWriter := env.writerInstalled,
           user := if env.writerInstalled then env.writerUser else 0 }]) ∧
    vlog_src env true level comp full =
      [{ level := level,
         content := mkHeader env.useTs env.ts level env.tid comp ++
                    (formatMessage full env.msgAllocOk).msg,
         viaWriter := env.writerInstalled,
         user := if env.writerInstalled then env.writerUser else 0 }] := by
  refine ⟨?_, ?_, ?_⟩
  · intro hbig
    refine ⟨vlog_trunc env level comp full hmin ha hhead hwarn hbig, ?_⟩
    have h3 : (str "...").length = 3 := rfl
    simp only [List.length_append, List.length_take, h3]
    simp only [HEAD_SIZE] at hhead
    simp only [LOG_MAX_WRITE] at hbig ⊢
    omega
  · intro hfit
    exact vlog_fits env level comp full hmin ha hhead hfit
  · exact vlog_src_line env level comp full hmin hheadsrc

/-- C2 counterexample: the `src/src` variant, also cited by the claim,
enforces no atomic-write bound — a 5000-byte message at INFO whose line
far exceeds the bound is emitted as one unmodified line with no `"..."`
and no `TRUNCATED:` companion. -/
theorem c2_src_no_truncation_counterexample :
    LOG_MAX_WRITE <
      (mkHeader defaultEnv.useTs defaultEnv.ts 1 defaultEnv.tid none).length +
      (List.replicate 5000 'a').length + 1 ∧
    vlog_src defaultEnv true 1 none (List.replicate 5000 'a') =
      [{ level := 1,
         content := mkHeader defaultEnv.useTs defaultEnv.ts 1 defaultEnv.tid none ++
                    List.replicate 5000 'a',
         viaWriter := false, user := 0 }] := by
  constructor
  · rw [defaultEnv_header_length, List.length_replicate]
    simp [LOG_MAX_WRITE]
  · rw [vlog_src_line defaultEnv 1 none (List.replicate 5000 'a')
      (by decide) (by decide)]
    rw [show (formatMessage (List.replicate 5000 'a') defaultEnv.msgAllocOk).msg =
      List.replicate 5000 'a' from formatMessage_msg_allocOk _]
    rfl

/-- C2 witness: a 5000-byte message at INFO produces the truncated line
plus the companion (two emissions) in the `src/app` variant, while
`"hi"` goes out unmodified as a single line in both variants. -/
theorem c2_truncation_bound_witness :
    (vlog defaultEnv 1 none (List.replicate 5000 'a')).length = 2 ∧
    vlog defaultEnv 1 none (str "hi") =
      [{ level := 1,
         content := mkHeader defaultEnv.useTs defaultEnv.ts 1 defaultEnv.tid none ++
                    str "hi",
         viaWriter := false, user := 0 }] ∧
    vlog_src defaultEnv true 1 none (str "hi") =
      [{ level := 1,
         content := mkHeader defaultEnv.useTs defaultEnv.ts 1 defaultEnv.tid none ++
                    str "hi",
         viaWriter := false, user := 0 }] := by
  refine ⟨?_, ?_, ?_⟩
  · have h := (c2_truncation_bound defaultEnv 1 none (List.replicate 5000 'a')
      (by decide) rfl (by decide) (by decide) (by decide)).1 replicate5000_exceeds
    rw [h.1]
    rfl
  · have h := (c2_truncation_bound defaultEnv 1 none (str "hi")
      (by decide) rfl (by decide) (by decide) (by decide)).2.1 (by decide)
    rw [h]
    decide
  · have h := (c2_truncation_bound defaultEnv 1 none (str "hi")
      (by decide) rfl (by decide) (by decide) (by decide)).2.2
    rw [h]
    decide

/-! ## C3 — level filtering -/

/-- C3 (amended): in the `src/app` variant a call below the configured
minimum produces no emission at all, while a passing call produces
exactly one emission when the assembled line fits the atomic-write
bound and exactly two (the truncated line and its `TRUNCATED:`
companion) when it exceeds it; in the `src/src` variant a passing call
always produces exactly one emission, whatever the line's size, and a
filtered call none. -/
theorem c3_level_filter (env : VlogEnv) (level : Nat) (comp : Option Bytes)
    (full : Bytes) (ha : env.writerAllocOk = true) :
    (level < env.minLevel → vlog env level comp full = []) ∧
    (env.minLevel ≤ level →
      ((vlog env level comp full).length = 1 ∨
       (vlog env level comp full).length = 2) ∧
      ((mkHeader env.useTs env.ts level env.tid comp).length +
          (formatMessage full env.msgAllocOk).msg.length + 1 ≤ LOG_MAX_WRITE →
        (vlog env level comp full).length = 1) ∧
      ((mkHeader env.useTs env.ts level env.tid comp).length ≤ HEAD_SIZE - 1 →
        (warnText level env.tid comp).length ≤ HEAD_SIZE - 1 →
        LOG_MAX_WRITE < (mkHeader env.useTs env.ts level env.tid comp).length +
          (formatMessage full env.msgAllocOk).msg.length + 1 →
        (vlog env level comp full).length = 2)) ∧
    (level < env.minLevel → vlog_src env true level comp full = []) ∧
    (env.minLevel ≤ level → (vlog_src env true level comp full).length = 1) := by
  refine ⟨?_, ?_, ?_, ?_⟩
  · intro h
    exact vlog_filtered env level comp full h
  · intro hmin
    refine ⟨?_, ?_, ?_⟩
    · unfold vlog
      rw [if_neg (by omega)]
      simp only []
      split_ifs <;> simp [write_line_iov_singleton, ha]
    · intro hfit
      unfold vlog
      rw [if_neg (by omega)]
      rw [if_neg (by omega : ¬(LOG_MAX_WRITE <
        (mkHeader env.useTs env.ts level env.tid comp).length +
        (formatMessage full env.msgAllocOk).msg.length + 1 ∧
        0 < (formatMessage full env.msgAllocOk).msg.length))]
      split_ifs <;> simp [write_line_iov_singleton, ha]
    · intro hh hw hbig
      rw [vlog_trunc env level comp full hmin ha hh hw hbig]
      rfl
  · intro h
    unfold vlog_src
    rw [if_pos h]
  · intro hmin
    unfold vlog_src
    rw [if_neg (by omega)]
    simp only []
    rw [if_pos trivial]
    exact write_line_length env level _

/-- C3 witness: a DBG call under minimum WARN emits nothing in either
variant; a fitting INFO call under minimum DBG emits exactly one line;
a 4200-byte over-bound call emits exactly two lines in the `src/app`
variant and exactly one in the `src/src` variant. -/
theorem c3_level_filter_witness :
    vlog { defaultEnv with minLevel := 2 } 0 none (str "hello") = [] ∧
    (vlog defaultEnv 1 none (str "hello")).length = 1 ∧
    (vlog defaultEnv 1 none (List.replicate 4200 'a')).length = 2 ∧
    vlog_src { defaultEnv with minLevel := 2 } true 0 none (str "hello") = [] ∧
    (vlog_src defaultEnv true 1 none (List.replicate 4200 'a')).length = 1 := by
  refine ⟨?_, ?_, ?_, ?_, ?_⟩
  · exact (c3_level_filter { defaultEnv with minLevel := 2 } 0 none (str "hello")
      rfl).1 (by decide)
  · exact ((c3_level_filter defaultEnv 1 none (str "hello") rfl).2.1
      (by decide)).2.1 (by decide)
  · exact ((c3_level_filter defaultEnv 1 none (List.replicate 4200 'a') rfl).2.1
      (by decide)).2.2 (by decide) (by decide)
      (by
        have hm : (formatMessage (List.replicate 4200 'a') defaultEnv.msgAllocOk).msg =
            List.replicate 4200 'a' := formatMessage_msg_allocOk _
        rw [hm, List.length_replicate, defaultEnv_header_length]
        decide)
  · exact (c3_level_filter { defaultEnv with minLevel := 2 } 0 none (str "hello")
      rfl).2.2.1 (by decide)
  · exact (c3_level_filter defaultEnv 1 none (List.replicate 4200 'a') rfl).2.2.2
      (by decide)

/-- C3 counterexample: at level INFO with minimum DBG, a 5000-byte
message produces two writer invocations (the truncated line and the
`TRUNCATED:` companion), not exactly one. -/
theorem c3_exactly_one_counterexample :
    defaultEnv.minLevel ≤ 1 ∧
    (vlog defaultEnv 1 none (List.replicate 5000 'a')).length = 2 ∧
    (vlog defaultEnv 1 none (List.replicate 5000 'a')).length ≠ 1 := by
  have h := vlog_trunc defaultEnv 1 none (List.replicate 5000 'a')
    (by decide) rfl (by decide) (by decide) replicate5000_exceeds
  rw [h]
  refine ⟨by decide, rfl, by decide⟩

/-! ## C5 — stack-first / heap-fallback message formatting -/

/-- C5: a message shorter than the 1024-byte stack buffer is used from
the stack with no allocation; at 1024 bytes or more a heap buffer of
exactly `need + 1` bytes is requested and, when it is granted, the full
text is reproduced; when the allocation fails the call degrades to the
first 1023 bytes of the message — in every case the line is still
emitted. -/
theorem c5_stack_heap_paths (env : VlogEnv) (level : Nat) (comp : Option Bytes)
    (full : Bytes)
    (hmin : env.minLevel ≤ level)
    (ha : env.writerAllocOk = true)
    (hhead : (mkHeader env.useTs env.ts level env.tid comp).length ≤ HEAD_SIZE - 1)
    (hfit : (mkHeader env.useTs env.ts level env.tid comp).length +
        full.length + 1 ≤ LOG_MAX_WRITE) :
    (full.length < STACKBUF_SIZE →
      formatMessage full env.msgAllocOk =
        { msg := full, usedHeap := false, allocReq := none } ∧
      vlog env level comp full =
        [{ level := level,
           content := mkHeader env.useTs env.ts level env.tid comp ++ full,
           viaWriter := env.writerInstalled,
           user := if env.writerInstalled then env.writerUser else 0 }]) ∧
    (STACKBUF_SIZE ≤ full.length → env.msgAllocOk = true →
      formatMessage full env.msgAllocOk =
        { msg := full, usedHeap := true, allocReq := some (full.length + 1) } ∧
      vlog env level comp full =
        [{ level := level,
           content := mkHeader env.useTs env.ts level env.tid comp ++ full,
           viaWriter := env.writerInstalled,
           user := if env.writerInstalled then env.writerUser else 0 }]) ∧
    (STACKBUF_SIZE ≤ full.length → env.msgAllocOk = false →
      formatMessage full env.msgAllocOk =
        { msg := full.take (STACKBUF_SIZE - 1), usedHeap := false,
          allocReq := some (full.length + 1) } ∧
      vlog env level comp full =
        [{ level := level,
           content := mkHeader env.useTs env.ts level env.tid comp ++
                      full.take (STACKBUF_SIZE - 1),
           viaWriter := env.writerInstalled,
           user := if env.writerInstalled then env.writerUser else 0 }]) := by
  refine ⟨?_, ?_, ?_⟩
  · intro hlt
    have hfm : formatMessage full env.msgAllocOk =
        { msg := full, usedHeap := false, allocReq := none } := by
      unfold formatMessage
      rw [if_pos hlt]
    refine ⟨hfm, ?_⟩
    rw [vlog_fits env level comp full hmin ha hhead (by rw [hfm]; exact hfit), hfm]
  · intro hge hma
    have hfm : formatMessage full env.msgAllocOk =
        { msg := full, usedHeap := true, allocReq := some (full.length + 1) } := by
      unfold formatMessage
      rw [if_neg (by omega), if_pos hma]
    refine ⟨hfm, ?_⟩
    rw [vlog_fits env level comp full hmin ha hhead (by rw [hfm]; exact hfit), hfm]
  · intro hge hma
    have hfm : formatMessage full env.msgAllocOk =
        { msg := full.take (STACKBUF_SIZE - 1), usedHeap := false,
          allocReq := some (full.length + 1) } := by
      unfold formatMessage
      rw [if_neg (by omega), if_neg (by simp [hma])]
    refine ⟨hfm, ?_⟩
    have hlen3 : (formatMessage full env.msgAllocOk).msg.length ≤ full.length := by
      rw [hfm]
      simp [List.length_take]
    rw [vlog_fits env level comp full hmin ha hhead (by omega), hfm]

/-- The shared sample environment with a failing message allocator. -/
def noAllocEnv : VlogEnv := { defaultEnv with msgAllocOk := false }

/-- C5 witness: 1023 bytes stay on the stack with no allocation;
1024 bytes request exactly 1025 heap bytes and keep the full text;
with the allocation refused the message degrades to its first
1023 bytes. -/
theorem c5_stack_heap_paths_witness :
    formatMessage (List.replicate 1023 'a') defaultEnv.msgAllocOk =
      { msg := List.replicate 1023 'a', usedHeap := false, allocReq := none } ∧
    formatMessage (List.replicate 1024 'a') defaultEnv.msgAllocOk =
      { msg := List.replicate 1024 'a', usedHeap := true, allocReq := some 1025 } ∧
    formatMessage (List.replicate 1024 'a') noAllocEnv.msgAllocOk =
      { msg := (List.replicate 1024 'a').take 1023, usedHeap := false,
        allocReq := some 1025 } := by
  refine ⟨?_, ?_, ?_⟩
  · exact ((c5_stack_heap_paths defaultEnv 1 none (List.replicate 1023 'a')
      (by decide) rfl (by decide)
      (by rw [defaultEnv_header_length, List.length_replicate]; decide)).1
      (by rw [List.length_replicate]; decide)).1
  · have h := ((c5_stack_heap_paths defaultEnv 1 none (List.replicate 1024 'a')
      (by decide) rfl (by decide)
      (by rw [defaultEnv_header_length, List.length_replicate]; decide)).2.1
      (by rw [List.length_replicate]; decide) rfl).1
    rw [List.length_replicate] at h
    exact h
  · have h := ((c5_stack_heap_paths noAllocEnv 1 none (List.replicate 1024 'a')
      (by decide) rfl (by decide)
      (by rw [List.length_replicate]; decide)).2.2
      (by rw [List.length_replicate]; decide) rfl).1
    rw [List.length_replicate] at h
    exact h

/-! ## C6 — header composition -/

/-- C6: with timestamps enabled the emitted line is
`"<ts> <LVL> [<tid>] [<comp>] <message>"`, and with timestamps disabled
the timestamp field is entirely absent (no empty placeholder):
`"<LVL> [<tid>] [<comp>] <message>"`; `<tid>` is the decimal
`eml_tid()` value, a `NULL` component renders as `"-"`, and the message
body follows the header unchanged. -/
theorem c6_header_shape (env : VlogEnv) (level : Nat) (comp : Option Bytes)
    (full : Bytes)
    (hmin : env.minLevel ≤ level)
    (ha : env.writerAllocOk = true)
    (hhead : (mkHeader env.useTs env.ts level env.tid comp).length ≤ HEAD_SIZE - 1)
    (hfit : (mkHeader env.useTs env.ts level env.tid comp).length +
        (formatMessage full env.msgAllocOk).msg.length + 1 ≤ LOG_MAX_WRITE) :
    (env.useTs = true →
      vlog env level comp full =
        [{ level := level,
           content := env.ts ++ str " " ++ lvl_str level ++ str " [" ++
             decimal env.tid ++ str "] [" ++ comp.getD (str "-") ++ str "] " ++
             (formatMessage full env.msgAllocOk).msg,
           viaWriter := env.writerInstalled,
           user := if env.writerInstalled then env.writerUser else 0 }]) ∧
    (env.useTs = false →
      vlog env level comp full =
        [{ level := level,
           content := lvl_str level ++ str " [" ++ decimal env.tid ++
             str "] [" ++ comp.getD (str "-") ++ str "] " ++
             (formatMessage full env.msgAllocOk).msg,
           viaWriter := env.writerInstalled,
           user := if env.writerInstalled then env.writerUser else 0 }]) ∧
    (comp = none → comp.getD (str "-") = str "-") := by
  refine ⟨?_, ?_, ?_⟩
  · intro hts
    rw [vlog_fits env level comp full hmin ha hhead hfit]
    unfold mkHeader
    rw [if_pos hts]
  · intro hts
    rw [vlog_fits env level comp full hmin ha hhead hfit]
    unfold mkHeader
    rw [if_neg (by simp [hts])]
  · intro h
    rw [h]
    rfl

/-- The shared sample environment with timestamps on (sample clock
bytes standing for one `fmt_time_iso8601` output). -/
def tsEnv : VlogEnv := { defaultEnv with
  useTs := true
  ts := str "2025-08-15T14:23:30.123+02:00" }

/-- C6 witness: the same message emitted with and without timestamps,
with a null component rendering as `"-"`. -/
theorem c6_header_shape_witness :
    vlog tsEnv 1 none (str "hi") =
      [{ level := 1,
         content := str "2025-08-15T14:23:30.123+02:00" ++ str " " ++
           lvl_str 1 ++ str " [" ++ decimal 7 ++ str "] [" ++ str "-" ++
           str "] " ++ str "hi",
         viaWriter := false, user := 0 }] ∧
    vlog defaultEnv 1 none (str "hi") =
      [{ level := 1,
         content := lvl_str 1 ++ str " [" ++ decimal 7 ++ str "] [" ++
           str "-" ++ str "] " ++ str "hi",
         viaWriter := false, user := 0 }] := by
  constructor
  · have h := (c6_header_shape tsEnv 1 none (str "hi")
      (by decide) rfl (by decide) (by decide)).1 rfl
    rw [h]
    decide
  · have h := (c6_header_shape defaultEnv 1 none (str "hi")
      (by decide) rfl (by decide) (by decide)).2.1 rfl
    rw [h]
    decide

/-! ## C7 — custom writer pass-through -/

/-- C7: with a custom writer installed, a passing call whose line fits
the atomic-write bound produces exactly one writer invocation; the
buffer is the header followed by the literal formatted message text,
the user context comes through unchanged, the length the writer sees is
the buffer's byte count, and the writer's return value has no effect on
the call's behavior. -/
theorem c7_writer_passthrough (env : VlogEnv) (level : Nat)
    (comp : Option Bytes) (full : Bytes)
    (hw : env.writerInstalled = true)
    (hmin : env.minLevel ≤ level)
    (hma : env.msgAllocOk = true)
    (ha : env.writerAllocOk = true)
    (hhead : (mkHeader env.useTs env.ts level env.tid comp).length ≤ HEAD_SIZE - 1)
    (hfit : (mkHeader env.useTs env.ts level env.tid comp).length +
        full.length + 1 ≤ LOG_MAX_WRITE) :
    vlog env level comp full =
      [{ level := level,
         content := mkHeader env.useTs env.ts level env.tid comp ++ full,
         viaWriter := true, user := env.writerUser }] ∧
    (mkHeader env.useTs env.ts level env.tid comp ++ full).length =
      (mkHeader env.useTs env.ts level env.tid comp).length + full.length ∧
    (∀ r : Int, vlog { env with writerRet := r } level comp full =
        vlog env level comp full) := by
  have hmsg : (formatMessage full env.msgAllocOk).msg = full := by
    rw [hma]
    exact formatMessage_msg_allocOk full
  refine ⟨?_, List.length_append _ _, fun r => rfl⟩
  rw [vlog_fits env level comp full hmin ha hhead (by rw [hmsg]; exact hfit)]
  rw [hmsg, hw]
  simp

/-- C7 witness: the spec's scenario — minimum DBG, custom writer with
context 42, `WARN`-level emit with component `"X"` and message
`"hello"`: one invocation whose buffer is `"WRN [7] [X] hello"`. -/
theorem c7_writer_passthrough_witness :
    vlog writerEnv 2 (some (str "X")) (str "hello") =
      [{ level := 2, content := str "WRN [7] [X] hello",
         viaWriter := true, user := 42 }] := by
  have h := (c7_writer_passthrough writerEnv 2 (some (str "X")) (str "hello")
    rfl (by decide) rfl rfl (by decide) (by decide)).1
  rw [h]
  decide

/-! ## C8 — errno-augmented logging -/

/-- C8: when the formatted base message is shorter than the 768-byte
`base` buffer, `emlog_log_errno` emits the base message followed by
`": "`, the platform `strerror` text, a space, and the decimal errno in
parentheses; the 768-byte bound exists because the base text is
`vsnprintf`-ed into `base[768]` and silently truncated past 767
bytes. -/
theorem c8_errno_augmented (env : VlogEnv) (strerror : Int → Bytes)
    (level : Nat) (comp : Option Bytes) (err : Int) (full : Bytes)
    (hbase : full.length < ERRNO_BASE_SIZE)
    (hmin : env.minLevel ≤ level)
    (hma : env.msgAllocOk = true)
    (ha : env.writerAllocOk = true)
    (hhead : (mkHeader env.useTs env.ts level env.tid comp).length ≤ HEAD_SIZE - 1)
    (hfit : (mkHeader env.useTs env.ts level env.tid comp).length +
        (errnoMessage strerror err full).length + 1 ≤ LOG_MAX_WRITE) :
    emlog_log_errno env strerror level comp err full =
      [{ level := level,
         content := mkHeader env.useTs env.ts level env.tid comp ++
           (full ++ str ": " ++ strerror err ++ str " (" ++
            decimalInt err ++ str ")"),
         viaWriter := env.writerInstalled,
         user := if env.writerInstalled then env.writerUser else 0 }] := by
  have htake : full.take (ERRNO_BASE_SIZE - 1) = full := by
    apply List.take_of_length_le
    simp only [ERRNO_BASE_SIZE] at hbase ⊢
    omega
  unfold emlog_log_errno emlog_log
  rw [htake]
  have hmsg : (formatMessage (errnoMessage strerror err full) env.msgAllocOk).msg =
      errnoMessage strerror err full := by
    rw [hma]
    exact formatMessage_msg_allocOk _
  rw [vlog_fits env level comp (errnoMessage strerror err full) hmin ha hhead
    (by rw [hmsg]; exact hfit)]
  rw [hmsg]
  rfl

/-- C8 witness: the spec's scenario — `"open file.txt"` with the
"file not found" errno 2 and its platform text. -/
theorem c8_errno_augmented_witness :
    emlog_log_errno defaultEnv (fun _ => str "No such file or directory") 3
        none 2 (str "open file.txt") =
      [{ level := 3,
         content := str "ERR [7] [-] " ++
           (str "open file.txt" ++ str ": " ++
            str "No such file or directory" ++ str " (" ++
            decimalInt 2 ++ str ")"),
         viaWriter := false, user := 0 }] := by
  have h := c8_errno_augmented defaultEnv
    (fun _ => str "No such file or directory") 3 none 2 (str "open file.txt")
    (by decide) (by decide) rfl rfl (by decide) (by decide)
  rw [h]
  decide

/-! ## C10 — `emlog_init` logs its own configuration -/

theorem initMessage_length_le (l : Nat) (b : Bool) :
    (initMessage l b).length ≤ 51 := by
  unfold initMessage
  cases b <;>
    simp only [Bool.false_eq_true, if_false, if_true, List.length_append,
      lvl_str_length] <;>
    decide

/-- C10: `emlog_init` (src/app variant), besides updating the
configuration (level, timestamp flag, generation counter, initialized
flag), itself emits exactly one INFO-level line with component
`"emlog"` whose body reports the new level and timestamp setting —
whenever INFO is at or above the newly set minimum level — and emits
nothing when the new minimum is above INFO. -/
theorem c10_init_logs_itself (g : GState) (envVar : Option String)
    (ts : Bytes) (tid : Nat) (wi : Bool) (wu : Nat) (ma wa : Bool) (wr : Int)
    (ml : Int) (tsFlag : Bool)
    (hma : ma = true)
    (hwa : wa = true)
    (hhead : (mkHeader tsFlag ts EML_LEVEL_INFO tid (some (str "emlog"))).length ≤
      HEAD_SIZE - 1) :
    ((emlog_init g envVar ts tid wi wu ma wa wr ml tsFlag).1.useTs = tsFlag ∧
     (emlog_init g envVar ts tid wi wu ma wa wr ml tsFlag).1.initGen =
       g.initGen + 1 ∧
     (emlog_init g envVar ts tid wi wu ma wa wr ml tsFlag).1.initialized = true) ∧
    ((emlog_init g envVar ts tid wi wu ma wa wr ml tsFlag).1.minLevel ≤
        EML_LEVEL_INFO →
      (emlog_init g envVar ts tid wi wu ma wa wr ml tsFlag).2 =
        [{ level := EML_LEVEL_INFO,
           content := mkHeader tsFlag ts EML_LEVEL_INFO tid (some (str "emlog")) ++
             initMessage
               (emlog_init g envVar ts tid wi wu ma wa wr ml tsFlag).1.minLevel
               tsFlag,
           viaWriter := wi, user := if wi then wu else 0 }]) ∧
    (EML_LEVEL_INFO <
        (emlog_init g envVar ts tid wi wu ma wa wr ml tsFlag).1.minLevel →
      (emlog_init g envVar ts tid wi wu ma wa wr ml tsFlag).2 = []) := by
  subst hma hwa
  refine ⟨⟨rfl, rfl, rfl⟩, ?_, ?_⟩
  · intro hle
    simp only [emlog_init] at hle ⊢
    generalize hL : (if ml < 0 then parse_level envVar else ml.toNat) = L at hle ⊢
    show vlog ⟨L, tsFlag, ts, tid, wi, wu, true, true, wr⟩ EML_LEVEL_INFO
      (some (str "emlog")) (initMessage L tsFlag) = _
    rw [vlog_fits ⟨L, tsFlag, ts, tid, wi, wu, true, true, wr⟩ EML_LEVEL_INFO
      (some (str "emlog")) (initMessage L tsFlag) hle rfl hhead
      (by
        show (mkHeader tsFlag ts EML_LEVEL_INFO tid (some (str "emlog"))).length +
          (formatMessage (initMessage L tsFlag) true).msg.length + 1 ≤ LOG_MAX_WRITE
        rw [formatMessage_msg_allocOk]
        have h1 := initMessage_length_le L tsFlag
        simp only [HEAD_SIZE] at hhead
        simp only [LOG_MAX_WRITE]
        omega)]
    simp [formatMessage_msg_allocOk]
  · intro hgt
    simp only [emlog_init] at hgt ⊢
    generalize hL : (if ml < 0 then parse_level envVar else ml.toNat) = L at hgt ⊢
    exact vlog_filtered ⟨L, tsFlag, ts, tid, wi, wu, true, true, wr⟩
      EML_LEVEL_INFO (some (str "emlog")) (initMessage L tsFlag) hgt

/-- C10 witness: initializing to DBG emits the INFO line (with its
exact content); initializing to ERROR emits nothing. -/
theorem c10_init_logs_itself_witness :
    (emlog_init ⟨1, true, 0, false⟩ none [] 7 false 0 true true 0 0 false).2 =
      [{ level := EML_LEVEL_INFO,
         content := mkHeader false [] EML_LEVEL_INFO 7 (some (str "emlog")) ++
           initMessage 0 false,
         viaWriter := false, user := 0 }] ∧
    (emlog_init ⟨1, true, 0, false⟩ none [] 7 false 0 true true 0 3 false).2 =
      [] ∧
    (emlog_init ⟨1, true, 0, false⟩ none [] 7 false 0 true true 0 0 false).1.initGen
      = 1 := by
  refine ⟨?_, ?_, ?_⟩
  · have h := (c10_init_logs_itself ⟨1, true, 0, false⟩ none [] 7 false 0
      true true 0 0 false rfl rfl (by decide)).2.1 (by decide)
    rw [h]
    rfl
  · exact (c10_init_logs_itself ⟨1, true, 0, false⟩ none [] 7 false 0
      true true 0 3 false rfl rfl (by decide)).2.2 (by decide)
  · exact (c10_init_logs_itself ⟨1, true, 0, false⟩ none [] 7 false 0
      true true 0 0 false rfl rfl (by decide)).1.2.1

end EMlog
